import Mathlib

/-!
Verification of the system-bridge backend core against its specification.

The Python source is shallowly embedded: pure fragments become Lean
functions, stateful methods become explicit state-passing functions, the
asynchronous update cycle is serialised (each started unit runs to
completion independently, which is faithful for the per-key effects the
claims are about), and fallible calls return Except values.  String
constants that live in the external systembridgeshared / systembridgemodels
packages carry the values the specification gives for them.
-/

namespace SystemBridge

/-! ## Closed module-name set (systembridgebackend/modules, MODULES) -/

/-- The closed module-name set, MODULES in modules. -/
def MODULES : List String :=
  ["battery", "cpu", "disks", "displays", "gpus", "media",
   "memory", "networks", "processes", "sensors", "system"]

/-! ## Listener registry (systembridgebackend/modules/listeners.py) -/

/-- A registered listener (class Listener): the id, the two connection-side
callables (send_response and data_changed_callback, modeled as opaque
numeric handles naming the connection they deliver to) and the interest
set. -/
structure Listener where
  id : String
  send_response : Nat
  data_changed_callback : Nat
  modules : List String

/-- State of the listener registry (class Listeners): the
registered_listeners list. -/
structure ListenersState where
  registered_listeners : List Listener

/-- Listeners.add_listener: if a listener with the id is already present the
registry is unchanged and True is returned; otherwise the listener is
appended and False is returned.  Note the declared parameters: listener_id,
send_response, data_changed_callback, modules. -/
def add_listener (st : ListenersState) (listener_id : String)
    (send_response : Nat) (data_changed_callback : Nat)
    (modules : List String) : ListenersState × Bool :=
  if st.registered_listeners.any (fun l => l.id == listener_id) then
    (st, true)
  else
    (⟨st.registered_listeners ++
        [⟨listener_id, send_response, data_changed_callback, modules⟩]⟩,
     false)

/-- One delivery performed during fan-out: the receiving listener's id and
data_changed_callback handle, the module name, and the data blob passed. -/
structure Delivery (α : Type) where
  listenerId : String
  callback : Nat
  module : String
  data : α

/-- The for-loop of Listeners.refresh_data_by_module: every registered
listener whose interest set contains the module receives one
data_changed_callback call, in registry order. -/
def dispatchLoop {α : Type} (listeners : List Listener) (module : String)
    (data : α) : List (Delivery α) :=
  match listeners with
  | [] => []
  | l :: rest =>
    if module ∈ l.modules then
      ⟨l.id, l.data_changed_callback, module, data⟩ ::
        dispatchLoop rest module data
    else
      dispatchLoop rest module data

/-- Listeners.refresh_data_by_module: a module name outside MODULES is
logged and skipped (no listener invoked); otherwise the registered
listeners are walked and the interested ones are called.  The registry is
returned exactly as the method leaves it (the method performs no
assignment to registered_listeners). -/
def refresh_data_by_module {α : Type} (st : ListenersState) (data : α)
    (module : String) : ListenersState × List (Delivery α) :=
  if module ∈ MODULES then
    (st, dispatchLoop st.registered_listeners module data)
  else
    (st, [])

/-- The removal loop of Listeners.remove_listener: drop the first listener
carrying the id, report whether one was found. -/
def removeLoop (listeners : List Listener) (listener_id : String) :
    List Listener × Bool :=
  match listeners with
  | [] => ([], false)
  | l :: rest =>
    if l.id == listener_id then (rest, true)
    else
      let r := removeLoop rest listener_id
      (l :: r.1, r.2)

/-- Listeners.remove_listener. -/
def remove_listener (st : ListenersState) (listener_id : String) :
    ListenersState × Bool :=
  let r := removeLoop st.registered_listeners listener_id
  (⟨r.1⟩, r.2)

/-- Helper: dispatchLoop delivers to exactly the interested listeners, in
order. -/
theorem dispatchLoop_eq_filter {α : Type} (module : String) (data : α) :
    ∀ listeners : List Listener,
      dispatchLoop listeners module data =
        (listeners.filter (fun l => decide (module ∈ l.modules))).map
          (fun l => ⟨l.id, l.data_changed_callback, module, data⟩) := by
  intro listeners
  induction listeners with
  | nil => rfl
  | cons l rest ih =>
    by_cases h : module ∈ l.modules
    · simp [dispatchLoop, h, List.filter, ih]
    · simp [dispatchLoop, h, List.filter, ih]

/-- Claim C5: dispatching a data update for a module in the closed
module-name set delivers the data exactly to the currently-registered
listeners whose interest set contains that module (in registry order);
listeners subscribed only to other modules receive nothing, and for a
module name outside the closed set no listener is invoked at all. -/
theorem C5_dispatch_exactly_interested {α : Type} (st : ListenersState)
    (data : α) (module : String) :
    (refresh_data_by_module st data module).2 =
      if module ∈ MODULES then
        (st.registered_listeners.filter
            (fun l => decide (module ∈ l.modules))).map
          (fun l => ⟨l.id, l.data_changed_callback, module, data⟩)
      else
        ([] : List (Delivery α)) := by
  by_cases h : module ∈ MODULES
  · simp [refresh_data_by_module, h, dispatchLoop_eq_filter]
  · simp [refresh_data_by_module, h]

/-- Claim C9: fan-out leaves the listener registry itself unchanged: the
registered listeners, with their ids, interest sets and callback handles,
are the same before and after a dispatch, for every registry state, module
name and data value. -/
theorem C9_dispatch_frame {α : Type} (st : ListenersState) (data : α)
    (module : String) :
    (refresh_data_by_module st data module).1 = st := by
  by_cases h : module ∈ MODULES <;> simp [refresh_data_by_module, h]

/-! ## Update orchestrator (systembridgebackend/modules, class ModulesUpdate,
composed with DataUpdate._data_updated_callback from handlers/data.py and the
fan-out notification in server, Server.data_updated). -/

/-- Association lookup: Python dict / dataclass-attribute read. -/
def assocLookup {β : Type} (l : List (String × β)) (k : String) : Option β :=
  match l with
  | [] => none
  | (k2, v) :: rest => if k2 = k then some v else assocLookup rest k

/-- Association update: Python dict assignment / setattr — replaces the
existing entry for the key or appends a new one. -/
def assocSet {β : Type} (l : List (String × β)) (k : String) (v : β) :
    List (String × β) :=
  match l with
  | [] => [(k, v)]
  | (k2, v2) :: rest =>
    if k2 = k then (k, v) :: rest else (k2, v2) :: assocSet rest k v

/-- The module name under which the shared sensors input is published. -/
def sensorsName : String := "sensors"

/-- One entry of ModulesUpdate._classes: the module name and whether the
provider instance has a sensors attribute (the hasattr capability probe:
true for the cpu, displays and gpus providers). -/
structure ClassEntry where
  name : String
  acceptsSensors : Bool

/-- ModulesUpdate._classes, in declaration order. -/
def CLASSES : List ClassEntry :=
  [⟨"system", false⟩, ⟨"battery", false⟩, ⟨"cpu", true⟩,
   ⟨"disks", false⟩, ⟨"displays", true⟩, ⟨"gpus", true⟩,
   ⟨"memory", false⟩, ⟨"networks", false⟩, ⟨"processes", false⟩]

/-- The names of the nine orchestrated module classes. -/
def classNames : List String := CLASSES.map (fun c => c.name)

/-- The busy test of ModulesUpdate.update_data: the module's name is in the
tasks dict and its task is not done.  The tasks state maps a module name to
its task's done flag. -/
def busy (tasks : List (String × Bool)) (name : String) : Bool :=
  match assocLookup tasks name with
  | some done => !done
  | none => false

/-- Result of the class loop of ModulesUpdate.update_data: the tasks dict
after the loop, the modules whose update task was started this cycle (in
iteration order), and the providers that had the shared sensors input
injected. -/
structure CycleStart where
  tasks : List (String × Bool)
  started : List String
  injected : List String

/-- The for-loop of ModulesUpdate.update_data over _classes: inject the
shared sensors input into providers that accept it, skip a module whose
task is still running (a no-op: nothing queued, tasks dict untouched for
that name), otherwise store a fresh (not yet done) task for it and record
it as started. -/
def classLoop (tasks : List (String × Bool)) (cs : List ClassEntry) :
    CycleStart :=
  match cs with
  | [] => ⟨tasks, [], []⟩
  | c :: rest =>
    if busy tasks c.name then
      let r := classLoop tasks rest
      ⟨r.tasks, r.started,
       if c.acceptsSensors then c.name :: r.injected else r.injected⟩
    else
      let r := classLoop (assocSet tasks c.name false) rest
      ⟨r.tasks, c.name :: r.started,
       if c.acceptsSensors then c.name :: r.injected else r.injected⟩

/-- Result of ModulesUpdate.update_data: tasks and snapshot state, the
started modules, the updated-callback notifications emitted so far (the
fan-out event names), the sensors injections, and whether the cycle was
aborted by an exception escaping update_data itself. -/
structure UpdateDataResult (α : Type) where
  tasks : List (String × Bool)
  snapshot : List (String × α)
  started : List String
  events : List String
  injected : List String
  aborted : Bool

/-- ModulesUpdate.update_data.  The shared sensors input is computed first,
synchronously and outside any per-module failure boundary: when the sensors
provider raises, the exception escapes update_data (to the caller's logging
boundary in UpdateThread._run) and nothing else in the cycle runs.  On
success the sensors blob is published through the updated callback (setattr
on the snapshot plus a fan-out notification) and the class loop starts the
per-module tasks. -/
def update_data {α : Type} (tasks : List (String × Bool))
    (snapshot : List (String × α)) (sensorsOutcome : Except Unit α) :
    UpdateDataResult α :=
  match sensorsOutcome with
  | .error _ => ⟨tasks, snapshot, [], [], [], true⟩
  | .ok sensors_data =>
    let snapshot1 := assocSet snapshot sensorsName sensors_data
    let r := classLoop tasks CLASSES
    ⟨r.tasks, snapshot1, r.started, [sensorsName], r.injected, false⟩

/-- ModulesUpdate.update_module, composed with
DataUpdate._data_updated_callback: the provider call and the
updated-callback sit inside a per-module try/except, so a provider failure
is logged and produces neither a snapshot write nor a fan-out notification
for that module; a success writes the module's snapshot entry and emits one
notification. -/
def update_module {α : Type} (snapshot : List (String × α)) (name : String)
    (outcome : Except Unit α) : List (String × α) × List String :=
  match outcome with
  | .ok d => (assocSet snapshot name d, [name])
  | .error _ => (snapshot, [])

/-- Running the started tasks to completion (serialised; each task touches
only its own module's state, so the interleaving order is immaterial for
per-module effects).  Completing a task flips its done flag in the tasks
dict. -/
def run_tasks {α : Type} (tasks : List (String × Bool))
    (snapshot : List (String × α)) (outcomes : String → Except Unit α) :
    List String → List (String × Bool) × List (String × α) × List String :=
  fun names =>
    match names with
    | [] => (tasks, snapshot, [])
    | n :: rest =>
      let r := update_module snapshot n (outcomes n)
      let r2 := run_tasks (assocSet tasks n true) r.1 outcomes rest
      (r2.1, r2.2.1, r.2 ++ r2.2.2)

/-- Result of one full refresh cycle. -/
structure CycleResult (α : Type) where
  tasks : List (String × Bool)
  snapshot : List (String × α)
  started : List String
  events : List String
  aborted : Bool

/-- One refresh cycle: update_data followed by the started tasks running to
completion.  The per-module provider outcomes for this cycle are given by
the outcomes oracle. -/
def run_cycle {α : Type} (tasks : List (String × Bool))
    (snapshot : List (String × α)) (sensorsOutcome : Except Unit α)
    (outcomes : String → Except Unit α) : CycleResult α :=
  let u := update_data tasks snapshot sensorsOutcome
  if u.aborted then
    ⟨u.tasks, u.snapshot, u.started, u.events, true⟩
  else
    let r := run_tasks u.tasks u.snapshot outcomes u.started
    ⟨r.1, r.2.1, u.started, u.events ++ r.2.2, false⟩

/-- Helper: a busy module is not started by the class loop and its tasks
entry is left untouched. -/
theorem classLoop_busy_skip (m : String) :
    ∀ (cs : List ClassEntry) (tasks : List (String × Bool)),
      busy tasks m = true →
        m ∉ (classLoop tasks cs).started ∧
          assocLookup (classLoop tasks cs).tasks m = assocLookup tasks m := by
  intro cs
  induction cs with
  | nil => intro tasks h; exact ⟨List.not_mem_nil m, rfl⟩
  | cons c rest ih =>
    intro tasks h
    by_cases hb : busy tasks c.name
    · simpa [classLoop, hb] using ih tasks h
    · have hne : c.name ≠ m := by
        intro he; rw [he] at hb; exact hb h
      have hlook : assocLookup (assocSet tasks c.name false) m
          = assocLookup tasks m := by
        clear h hb ih
        induction tasks with
        | nil => simp [assocSet, assocLookup, hne]
        | cons p rest2 ih2 =>
          by_cases hk : p.1 = c.name
          · simp [assocSet, assocLookup, hk, hne]
          · simp [assocSet, assocLookup, hk, ih2]
      have hbusy2 : busy (assocSet tasks c.name false) m = true := by
        simpa [busy, hlook] using h
      have hr := ih (assocSet tasks c.name false) hbusy2
      refine ⟨?_, ?_⟩
      · simp only [classLoop, hb, if_false, Bool.false_eq_true]
        simp only [List.mem_cons, not_or]
        exact ⟨fun he => hne he.symm, hr.1⟩
      · simp only [classLoop, hb, if_false, Bool.false_eq_true]
        rw [hr.2, hlook]

/-- Claim C3: during one update cycle, a module whose previous refresh task
has not completed is skipped: the cycle does not start a second invocation
of its provider, nothing is queued for it, and its tasks entry is left
exactly as it was. -/
theorem C3_busy_module_not_restarted {α : Type}
    (tasks : List (String × Bool)) (snapshot : List (String × α))
    (sensorsOutcome : Except Unit α) (m : String)
    (hbusy : busy tasks m = true) :
    m ∉ (update_data tasks snapshot sensorsOutcome).started ∧
      assocLookup (update_data tasks snapshot sensorsOutcome).tasks m
        = assocLookup tasks m := by
  cases sensorsOutcome with
  | error e => exact ⟨List.not_mem_nil m, rfl⟩
  | ok sd =>
    simpa [update_data] using classLoop_busy_skip m CLASSES tasks hbusy

/-- Witness for C3: with cpu's previous task still running, the cycle does
not start cpu again and leaves its task entry alone. -/
theorem C3_busy_module_not_restarted_witness :
    busy [("cpu", false)] "cpu" = true ∧
      ("cpu" ∉ (update_data (α := Nat) [("cpu", false)] []
            (Except.ok 7)).started ∧
        assocLookup (update_data (α := Nat) [("cpu", false)] []
            (Except.ok 7)).tasks "cpu"
          = assocLookup [("cpu", false)] "cpu") :=
  ⟨by decide,
   C3_busy_module_not_restarted [("cpu", false)] [] (Except.ok 7) "cpu"
     (by decide)⟩

/-- Helper: association update at a different key preserves a lookup. -/
theorem assocLookup_assocSet_ne {β : Type} (k m : String) (v : β)
    (hne : k ≠ m) :
    ∀ l : List (String × β), assocLookup (assocSet l k v) m = assocLookup l m := by
  intro l
  induction l with
  | nil => simp [assocSet, assocLookup, hne]
  | cons p rest ih =>
    by_cases hk : p.1 = k
    · simp [assocSet, assocLookup, hk, hne]
    · simp [assocSet, assocLookup, hk, ih]

/-- Helper: association update at a key makes that key's lookup the new
value. -/
theorem assocLookup_assocSet_self {β : Type} (k : String) (v : β) :
    ∀ l : List (String × β), assocLookup (assocSet l k v) k = some v := by
  intro l
  induction l with
  | nil => simp [assocSet, assocLookup]
  | cons p rest ih =>
    by_cases hk : p.1 = k
    · simp [assocSet, assocLookup, hk]
    · simp [assocSet, assocLookup, hk, ih]

/-- Helper: running tasks for other modules leaves a module's snapshot
entry alone. -/
theorem run_tasks_snapshot_not_mem {α : Type} (outcomes : String → Except Unit α)
    (m : String) :
    ∀ (names : List String) (tasks : List (String × Bool))
      (snapshot : List (String × α)), m ∉ names →
      assocLookup (run_tasks tasks snapshot outcomes names).2.1 m
        = assocLookup snapshot m := by
  intro names
  induction names with
  | nil => intro tasks snapshot _; rfl
  | cons n rest ih =>
    intro tasks snapshot hm
    have hmn : n ≠ m := fun he => hm (by rw [he]; exact List.mem_cons_self m rest)
    have hrest : m ∉ rest := fun hr => hm (List.mem_cons_of_mem n hr)
    cases hout : outcomes n with
    | ok d =>
      simp only [run_tasks, update_module, hout]
      rw [ih _ _ hrest, assocLookup_assocSet_ne n m d hmn]
    | error e =>
      simp only [run_tasks, update_module, hout]
      rw [ih _ _ hrest]

/-- Helper: a module whose provider fails this cycle gets no snapshot write
from the task runs. -/
theorem run_tasks_snapshot_failed {α : Type} (outcomes : String → Except Unit α)
    (m : String) (hfail : outcomes m = Except.error ()) :
    ∀ (names : List String) (tasks : List (String × Bool))
      (snapshot : List (String × α)),
      assocLookup (run_tasks tasks snapshot outcomes names).2.1 m
        = assocLookup snapshot m := by
  intro names
  induction names with
  | nil => intro tasks snapshot; rfl
  | cons n rest ih =>
    intro tasks snapshot
    cases hout : outcomes n with
    | ok d =>
      have hmn : n ≠ m := by
        intro he; rw [he, hfail] at hout; exact Except.noConfusion hout
      simp only [run_tasks, update_module, hout]
      rw [ih _ _, assocLookup_assocSet_ne n m d hmn]
    | error e =>
      simp only [run_tasks, update_module, hout]
      rw [ih _ _]

/-- Helper: a module whose provider fails this cycle emits no fan-out
notification from the task runs. -/
theorem run_tasks_events_failed {α : Type} (outcomes : String → Except Unit α)
    (m : String) (hfail : outcomes m = Except.error ()) :
    ∀ (names : List String) (tasks : List (String × Bool))
      (snapshot : List (String × α)),
      m ∉ (run_tasks tasks snapshot outcomes names).2.2 := by
  intro names
  induction names with
  | nil => intro tasks snapshot; exact List.not_mem_nil m
  | cons n rest ih =>
    intro tasks snapshot
    cases hout : outcomes n with
    | ok d =>
      have hmn : n ≠ m := by
        intro he; rw [he, hfail] at hout; exact Except.noConfusion hout
      simp only [run_tasks, update_module, hout, List.cons_append,
        List.nil_append, List.mem_cons, not_or]
      exact ⟨fun he => hmn he.symm, ih _ _⟩
    | error e =>
      simpa only [run_tasks, update_module, hout, List.nil_append] using ih _ _

/-- Helper: a started module with a succeeding provider ends the cycle with
its fresh value in the snapshot. -/
theorem run_tasks_snapshot_ok {α : Type} (outcomes : String → Except Unit α)
    (m : String) (d : α) (hok : outcomes m = Except.ok d) :
    ∀ (names : List String) (tasks : List (String × Bool))
      (snapshot : List (String × α)), m ∈ names →
      assocLookup (run_tasks tasks snapshot outcomes names).2.1 m = some d := by
  intro names
  induction names with
  | nil => intro tasks snapshot hm; exact absurd hm (List.not_mem_nil m)
  | cons n rest ih =>
    intro tasks snapshot hm
    by_cases hrest : m ∈ rest
    · cases hout : outcomes n with
      | ok d2 => simp only [run_tasks, update_module, hout]; exact ih _ _ hrest
      | error e => simp only [run_tasks, update_module, hout]; exact ih _ _ hrest
    · have hmn : m = n := by
        rcases List.mem_cons.mp hm with h | h
        · exact h
        · exact absurd h hrest
      subst hmn
      simp only [run_tasks, update_module, hok]
      rw [run_tasks_snapshot_not_mem outcomes m rest _ _ hrest,
        assocLookup_assocSet_self]

/-- Helper: a started module with a succeeding provider emits its fan-out
notification. -/
theorem run_tasks_events_ok {α : Type} (outcomes : String → Except Unit α)
    (m : String) (d : α) (hok : outcomes m = Except.ok d) :
    ∀ (names : List String) (tasks : List (String × Bool))
      (snapshot : List (String × α)), m ∈ names →
      m ∈ (run_tasks tasks snapshot outcomes names).2.2 := by
  intro names
  induction names with
  | nil => intro tasks snapshot hm; exact absurd hm (List.not_mem_nil m)
  | cons n rest ih =>
    intro tasks snapshot hm
    by_cases hmn : m = n
    · subst hmn
      simp only [run_tasks, update_module, hok, List.cons_append,
        List.nil_append]
      exact List.mem_cons_self m _
    · have hrest : m ∈ rest := by
        rcases List.mem_cons.mp hm with h | h
        · exact absurd h hmn
        · exact h
      cases hout : outcomes n with
      | ok d2 =>
        simp only [run_tasks, update_module, hout, List.cons_append,
          List.nil_append]
        exact List.mem_cons_of_mem n (ih _ _ hrest)
      | error e =>
        simpa only [run_tasks, update_module, hout, List.nil_append]
          using ih _ _ hrest

/-- Helper: a non-busy module listed among the classes is started by the
class loop. -/
theorem classLoop_starts_nonbusy (m : String) :
    ∀ (cs : List ClassEntry) (tasks : List (String × Bool)),
      busy tasks m = false → m ∈ cs.map (fun c => c.name) →
      m ∈ (classLoop tasks cs).started := by
  intro cs
  induction cs with
  | nil => intro tasks _ hm; exact absurd hm (List.not_mem_nil m)
  | cons c rest ih =>
    intro tasks hfree hm
    by_cases hcm : c.name = m
    · have hb : busy tasks c.name = false := by rw [hcm]; exact hfree
      simp only [classLoop, hb, if_false, Bool.false_eq_true]
      exact hcm ▸ List.mem_cons_self c.name _
    · have hrest : m ∈ rest.map (fun c => c.name) := by
        rcases List.mem_cons.mp hm with h | h
        · exact absurd h.symm hcm
        · exact h
      by_cases hb : busy tasks c.name
      · simp only [classLoop, hb, if_true]
        exact ih tasks hfree hrest
      · have hfree2 : busy (assocSet tasks c.name false) m = false := by
          unfold busy
          rw [assocLookup_assocSet_ne c.name m false hcm]
          exact hfree
        simp only [classLoop, hb, if_false, Bool.false_eq_true]
        exact List.mem_cons_of_mem c.name (ih _ hfree2 hrest)

/-- Helper: none of the nine orchestrated class names is the sensors
module. -/
theorem classNames_ne_sensors : ∀ m ∈ classNames, m ≠ sensorsName := by
  decide

/-- Counterexample to claim C4 as stated.  The sensors module is a member
of the closed module set and its provider runs during every refresh cycle,
but it runs synchronously inside update_data, outside the per-module
try/except of update_module.  When the sensors provider raises (and every
other provider would succeed), the exception escapes the whole cycle: no
other module's refresh starts, no fan-out notification is emitted — so the
failure of this one module is not confined to it, contradicting the claim
for X = sensors. -/
theorem C4_counterexample :
    (run_cycle (α := Nat) [] [] (Except.error ())
        (fun _ => Except.ok 1)).aborted = true ∧
      "cpu" ∉ (run_cycle (α := Nat) [] [] (Except.error ())
        (fun _ => Except.ok 1)).started ∧
      (run_cycle (α := Nat) [] [] (Except.error ())
        (fun _ => Except.ok 1)).events = [] := by
  refine ⟨rfl, ?_, rfl⟩
  decide

/-- Claim C4 (amended: the failing module ranges over the nine orchestrated
module classes, whose providers run inside the per-module failure boundary
of update_module; the sensors provider, which runs synchronously before
them, is excluded — its failure aborts the cycle, see the counterexample):
when module X's provider raises during a cycle whose sensors computation
succeeded, the failure is confined to X — X gets no fan-out notification
and its snapshot entry keeps its previous value, while every other
orchestrated, non-busy module still starts, and on provider success ends
the cycle with its fresh snapshot value and its fan-out notification
emitted. -/
theorem C4_provider_failure_confined {α : Type}
    (tasks : List (String × Bool)) (snapshot : List (String × α)) (sd : α)
    (outcomes : String → Except Unit α) (X : String)
    (hX : X ∈ classNames) (hfail : outcomes X = Except.error ()) :
    (X ∉ (run_cycle tasks snapshot (Except.ok sd) outcomes).events ∧
      assocLookup (run_cycle tasks snapshot (Except.ok sd) outcomes).snapshot X
        = assocLookup snapshot X) ∧
    ∀ Y ∈ classNames, busy tasks Y = false →
      Y ∈ (run_cycle tasks snapshot (Except.ok sd) outcomes).started ∧
      ∀ d : α, outcomes Y = Except.ok d →
        assocLookup (run_cycle tasks snapshot (Except.ok sd) outcomes).snapshot Y
            = some d ∧
          Y ∈ (run_cycle tasks snapshot (Except.ok sd) outcomes).events := by
  have hXs : X ≠ sensorsName := classNames_ne_sensors X hX
  constructor
  · constructor
    · simp only [run_cycle, update_data, Bool.false_eq_true, if_false, List.cons_append,
        List.nil_append, List.mem_cons, not_or]
      exact ⟨hXs, run_tasks_events_failed outcomes X hfail _ _ _⟩
    · simp only [run_cycle, update_data, Bool.false_eq_true, if_false]
      rw [run_tasks_snapshot_failed outcomes X hfail _ _ _,
        assocLookup_assocSet_ne sensorsName X sd (fun he => hXs he.symm)]
  · intro Y hY hfree
    have hstart : Y ∈ (classLoop tasks CLASSES).started :=
      classLoop_starts_nonbusy Y CLASSES tasks hfree hY
    refine ⟨?_, ?_⟩
    · simpa only [run_cycle, update_data, Bool.false_eq_true, if_false] using hstart
    · intro d hok
      constructor
      · simp only [run_cycle, update_data, Bool.false_eq_true, if_false]
        exact run_tasks_snapshot_ok outcomes Y d hok _ _ _ hstart
      · simp only [run_cycle, update_data, Bool.false_eq_true, if_false, List.cons_append,
          List.nil_append, List.mem_cons]
        exact Or.inr (run_tasks_events_ok outcomes Y d hok _ _ _ hstart)

/-- Concrete provider-outcome oracle for the C4 witness: the cpu provider
raises, every other provider returns 5. -/
def cpuFailOutcomes : String → Except Unit Nat :=
  fun n => if n = "cpu" then Except.error () else Except.ok 5

/-- Witness for C4: cpu's provider raising leaves cpu's snapshot entry
alone while memory still starts, updates and notifies. -/
theorem C4_provider_failure_confined_witness :
    ("cpu" ∈ classNames ∧ cpuFailOutcomes "cpu" = Except.error ()) ∧
    (("cpu" ∉ (run_cycle [] [] (Except.ok 9) cpuFailOutcomes).events ∧
        assocLookup (run_cycle [] [] (Except.ok 9) cpuFailOutcomes).snapshot
            "cpu"
          = assocLookup ([] : List (String × Nat)) "cpu") ∧
      ∀ Y ∈ classNames, busy [] Y = false →
        Y ∈ (run_cycle [] [] (Except.ok 9) cpuFailOutcomes).started ∧
        ∀ d : Nat, cpuFailOutcomes Y = Except.ok d →
          assocLookup (run_cycle [] [] (Except.ok 9) cpuFailOutcomes).snapshot Y
              = some d ∧
            Y ∈ (run_cycle [] [] (Except.ok 9) cpuFailOutcomes).events) :=
  ⟨⟨by decide, by rfl⟩,
   C4_provider_failure_confined [] [] 9 cpuFailOutcomes "cpu" (by decide)
     (by rfl)⟩

/-! ## Periodic-task primitive (systembridgebackend/handlers/threads/update.py,
class UpdateThread).  Wall-clock instants are integer timestamps (seconds);
the interval is the integer number of seconds handed to the constructor. -/

/-- Mutable state of an UpdateThread: the interval, the next scheduled run
instant and the stopping flag. -/
structure UpdateThreadState where
  interval : Int
  next_run : Int
  stopping : Bool

/-- UpdateThread.update_next_run at wall-clock time now: unless a stop was
requested, schedule the next run at now plus the interval. -/
def update_next_run (st : UpdateThreadState) (now : Int) : UpdateThreadState :=
  if st.stopping then st
  else { st with next_run := now + st.interval }

/-- UpdateThread._update_interval: store a changed interval (a no-op when
the value is unchanged, without the change log). -/
def update_interval (st : UpdateThreadState) (interval : Int) :
    UpdateThreadState :=
  if st.interval = interval then st
  else { st with interval := interval }

/-- A tick of the periodic loop: when it began and how long the update()
work took. -/
structure TickRun where
  startedAt : Int
  duration : Int

/-- The wake-up time of one pass of UpdateThread._run's while body entered
at wall-clock time now: sleep until next_run when it lies in the future,
otherwise proceed immediately. -/
def wakeTime (st : UpdateThreadState) (now : Int) : Int :=
  if st.next_run > now then st.next_run else now

/-- One pass of the while body of UpdateThread._run entered at wall-clock
time now: sleep until the scheduled instant, re-check the stop flag
(returning without running update() when set), then set the next scheduled
instant via update_next_run BEFORE invoking update(), and run update() —
whose duration is tickDuration and whose exceptions are swallowed by the
surrounding try/except.  Returns the state after the pass and the tick that
ran (none when the stop request short-circuited the pass). -/
def run_iteration (st : UpdateThreadState) (now : Int) (tickDuration : Int) :
    UpdateThreadState × Option TickRun :=
  if st.stopping then (st, none)
  else
    let st1 := update_next_run st (wakeTime st now)
    (st1, some ⟨wakeTime st now, tickDuration⟩)

/-- Claim C8: in every pass of the running periodic loop, the next
scheduled instant is set to now + interval before the tick work is
invoked: the tick that runs starts at the wake-up time, and the new
next_run equals that start time plus the interval — an expression
independent of the tick's duration, so the tick's execution time cannot
push the schedule later than one interval after the tick began. -/
theorem C8_schedule_set_before_tick (st : UpdateThreadState) (now : Int)
    (tickDuration : Int) (hrun : st.stopping = false) :
    (run_iteration st now tickDuration).2
        = some ⟨wakeTime st now, tickDuration⟩ ∧
      (run_iteration st now tickDuration).1.next_run
        = wakeTime st now + st.interval ∧
      ∀ d : Int, (run_iteration st now d).1.next_run
        = (run_iteration st now tickDuration).1.next_run := by
  refine ⟨?_, ?_, ?_⟩
  · simp [run_iteration, hrun]
  · simp [run_iteration, update_next_run, hrun]
  · intro d; simp [run_iteration, update_next_run, hrun]

/-- Witness for C8: a concrete pass with interval 30, next_run 100,
entered at time 90, whose tick takes 45 seconds. -/
theorem C8_schedule_set_before_tick_witness :
    (⟨30, 100, false⟩ : UpdateThreadState).stopping = false ∧
    ((run_iteration ⟨30, 100, false⟩ 90 45).2
        = some ⟨wakeTime ⟨30, 100, false⟩ 90, 45⟩ ∧
      (run_iteration ⟨30, 100, false⟩ 90 45).1.next_run
        = wakeTime ⟨30, 100, false⟩ 90 + (30 : Int) ∧
      ∀ d : Int, (run_iteration ⟨30, 100, false⟩ 90 d).1.next_run
        = (run_iteration ⟨30, 100, false⟩ 90 45).1.next_run) :=
  ⟨rfl, C8_schedule_set_before_tick ⟨30, 100, false⟩ 90 45 rfl⟩

/-! ## Protocol engine (systembridgebackend/server/websocket.py, class
WebSocketHandler).  The event-name and error-subtype constants live in the
external systembridgeshared.const package; their string values are the ones
the specification's event catalog and error-subtype catalog give.  Requests
and responses are the envelope dataclasses of the external
systembridgemodels package. -/

/-- Event name: application update request. -/
def TYPE_APPLICATION_UPDATE : String := "application_update"

/-- Event name: exit application. -/
def TYPE_EXIT_APPLICATION : String := "exit_application"

/-- Event name: keyboard keypress. -/
def TYPE_KEYBOARD_KEYPRESS : String := "keyboard_keypress"

/-- Event name: keyboard text. -/
def TYPE_KEYBOARD_TEXT : String := "keyboard_text"

/-- Event name: register a data listener. -/
def TYPE_REGISTER_DATA_LISTENER : String := "register_data_listener"

/-- Event name: unregister a data listener. -/
def TYPE_UNREGISTER_DATA_LISTENER : String := "unregister_data_listener"

/-- Event name: one-shot data read. -/
def TYPE_GET_DATA : String := "get_data"

/-- Response type: error. -/
def TYPE_ERROR : String := "error"

/-- Response type: data update (push or get_data result). -/
def TYPE_DATA_UPDATE : String := "data_update"

/-- Response type: acknowledgement that data is being gathered. -/
def TYPE_DATA_GET : String := "data_get"

/-- Response type: data listener registered. -/
def TYPE_DATA_LISTENER_REGISTERED : String := "data_listener_registered"

/-- Response type: data listener unregistered. -/
def TYPE_DATA_LISTENER_UNREGISTERED : String := "data_listener_unregistered"

/-- Error subtype: undecodable JSON payload. -/
def SUBTYPE_BAD_JSON : String := "bad_json"

/-- Error subtype: envelope that does not parse into a Request. -/
def SUBTYPE_BAD_REQUEST : String := "bad_request"

/-- Error subtype: authentication token mismatch. -/
def SUBTYPE_BAD_TOKEN : String := "bad_token"

/-- Error subtype: missing or empty modules list. -/
def SUBTYPE_MISSING_MODULES : String := "missing_modules"

/-- Error subtype: listener already registered. -/
def SUBTYPE_LISTENER_ALREADY_REGISTERED : String :=
  "listener_already_registered"

/-- Error subtype: listener not registered. -/
def SUBTYPE_LISTENER_NOT_REGISTERED : String := "listener_not_registered"

/-- Error subtype: unknown event (also used by the top-level exception
boundary of the message loop). -/
def SUBTYPE_UNKNOWN_EVENT : String := "unknown_event"

/-- The id a response carries when no request id could be parsed. -/
def UNKNOWN_ID : String := "UNKNOWN"

/-- The key under which modules lists travel in envelopes. -/
def EVENT_MODULES : String := "modules"

/-- Message text: no modules provided. -/
def MSG_NO_MODULES : String := "No modules provided"

/-- Message text: listener already registered with this connection. -/
def MSG_ALREADY_REGISTERED : String :=
  "Listener already registered with this connection"

/-- Message text: data listener registered. -/
def MSG_REGISTERED : String := "Data listener registered"

/-- Message text: data listener unregistered. -/
def MSG_UNREGISTERED : String := "Data listener unregistered"

/-- Message text: listener not registered with this connection. -/
def MSG_NOT_REGISTERED : String :=
  "Listener not registered with this connection"

/-- Message text: getting data. -/
def MSG_GETTING_DATA : String := "Getting data"

/-- Message text: cannot find data for module. -/
def MSG_NO_DATA : String := "Cannot find data for module"

/-- Message text: data received. -/
def MSG_DATA_RECEIVED : String := "Data received"

/-- Message text: unknown event. -/
def MSG_UNKNOWN_EVENT : String := "Unknown event"

/-- Message text of the bad_json error (the source interpolates the
JSONDecodeError's text after this prefix). -/
def MSG_INVALID_JSON : String := "Invalid JSON"

/-- Message text of the bad_request error. -/
def MSG_INVALID_REQUEST : String := "Invalid request"

/-- Message text of the bad_token error. -/
def MSG_INVALID_TOKEN : String := "Invalid token"

/-- The opaque handle standing for the bound method self._data_changed that
the register branch passes as a callback. -/
def dataChangedHandle : Nat := 0

/-- A Python exception value raised inside the event handler and caught by
the top-level boundary of the message loop. -/
inductive PyErr
  | typeError (detail : String)
  | keyError (key : String)
  | attributeError (attr : String)

/-- str(error) as interpolated into the boundary's error response. -/
def strOfPyErr : PyErr → String
  | .typeError detail => detail
  | .keyError key => "KeyError: " ++ key
  | .attributeError attr => "AttributeError: " ++ attr

/-- The data object of a response envelope, covering the shapes the handler
actually sends: empty, a message, a message with a modules list, a message
with the offending event name, a bare modules list, or a module's data
blob. -/
inductive RData (α : Type)
  | empty
  | msg (message : String)
  | msgModules (message : String) (modules : List String)
  | msgEvent (message : String) (event : String)
  | modulesOnly (modules : List String)
  | blob (value : α)

/-- The response envelope (systembridgemodels Response): id, type, optional
error subtype, optional module, optional top-level message, and the data
object. -/
structure Response (α : Type) where
  id : String
  type : String
  subtype : Option String := none
  module : Option String := none
  message : Option String := none
  data : RData α

/-- The data.modules access performed by the register_data_listener and
get_data branches on the raw request dict: the key can be absent (KeyError
on access), null, or an actual list. -/
inductive ModulesField
  | absent
  | null
  | given (modules : List String)

/-- The request envelope (systembridgemodels Request): id, token and event,
together with the data.modules content of the raw dict the handler reads. -/
structure Request where
  id : String
  token : String
  event : String
  dataModules : ModulesField

/-- One inbound websocket message as the loop's receive step classifies it:
an undecodable payload (receive_json raises json.JSONDecodeError), a decoded
payload that fails envelope construction with ValueError, or a parsed
Request. -/
inductive InMsg
  | badJson
  | badRequest
  | ok (r : Request)

/-- Connection-handler state: the active flag, the shared-secret token from
settings, the listener registry shared with the process, the snapshot
(ModulesData, the external dataclass whose attributes are exactly the
closed module-name set, absent modules holding None), and whether the exit
callback has been invoked. -/
structure WSState (α : Type) where
  active : Bool
  apiToken : String
  listeners : ListenersState
  snapshot : List (String × α)
  exitRequested : Bool

/-- WebSocketHandler.set_active. -/
def set_active {α : Type} (st : WSState α) (active : Bool) : WSState α :=
  { st with active := active }

/-- WebSocketHandler._send_response: when the handler has been deactivated
nothing is sent and nothing changes; otherwise the response goes out on the
websocket.  (The method's `self._websocket is None` guard is dead in this
embedding: the endpoint in server/api.py always constructs the handler with
a live websocket and nothing ever assigns None to it.) -/
def send_response {α : Type} (st : WSState α) (r : Response α) :
    WSState α × List (Response α) :=
  if st.active then (st, [r]) else (st, [])

/-- The outgoing messages produced by one _send_response call. -/
def send {α : Type} (st : WSState α) (r : Response α) : List (Response α) :=
  (send_response st r).2

/-- getattr(self._data_update.data, module): ModulesData is the external
dataclass whose fields are exactly the closed module-name set, each
defaulting to None; reading a name outside that set raises
AttributeError. -/
def modulesDataGetattr {α : Type} (snapshot : List (String × α))
    (module : String) : Except PyErr (Option α) :=
  if module ∈ MODULES then Except.ok (assocLookup snapshot module)
  else Except.error (PyErr.attributeError module)

/-- str(TypeError) for the add_listener call below. -/
def addListenerTypeErrorText : String :=
  "add_listener() missing 1 required positional argument: modules"

/-- The `await self._listeners.add_listener(listener_id, self._data_changed,
model.modules)` call of the register_data_listener branch.  Listeners
.add_listener declares four required parameters after self (listener_id,
send_response, data_changed_callback, modules) while this call site passes
three positional arguments, so Python raises TypeError at the call, before
add_listener's body runs: the call never returns and never mutates the
registry. -/
def websocketAddListenerCall (listeners : ListenersState)
    (listener_id : String) (dataChangedCallback : Nat)
    (modules : List String) : Except PyErr (ListenersState × Bool) :=
  Except.error (PyErr.typeError addListenerTypeErrorText)

/-- Result of one _handle_event call: the state afterwards, the responses
sent while it ran, and the exception that escaped it, if any (to be turned
into an error response by the message loop's boundary). -/
structure HandleResult (α : Type) where
  st : WSState α
  out : List (Response α)
  err : Option PyErr

/-- The register_data_listener branch of _handle_event.  An absent
data.modules key raises KeyError (not caught here: the branch's try only
catches ValueError); a null or empty list is answered with
missing_modules; otherwise the branch calls add_listener — a call that
raises TypeError (see websocketAddListenerCall), leaving the rest of the
branch (the already-registered error and the registered acknowledgement)
unreachable. -/
def registerBranch {α : Type} (st : WSState α) (listener_id : String)
    (r : Request) : HandleResult α :=
  match r.dataModules with
  | .absent => ⟨st, [], some (PyErr.keyError EVENT_MODULES)⟩
  | .null =>
    ⟨st,
     send st { id := r.id, type := TYPE_ERROR,
               subtype := some SUBTYPE_MISSING_MODULES,
               data := RData.msg MSG_NO_MODULES },
     none⟩
  | .given ms =>
    if ms.length = 0 then
      ⟨st,
       send st { id := r.id, type := TYPE_ERROR,
                 subtype := some SUBTYPE_MISSING_MODULES,
                 data := RData.msg MSG_NO_MODULES },
       none⟩
    else
      match websocketAddListenerCall st.listeners listener_id
          dataChangedHandle ms with
      | .error e => ⟨st, [], some e⟩
      | .ok res =>
        if res.2 then
          ⟨{ st with listeners := res.1 },
           send st { id := r.id, type := TYPE_ERROR,
                     subtype := some SUBTYPE_LISTENER_ALREADY_REGISTERED,
                     data := RData.msgModules MSG_ALREADY_REGISTERED ms },
           none⟩
        else
          ⟨{ st with listeners := res.1 },
           send st { id := r.id, type := TYPE_DATA_LISTENER_REGISTERED,
                     data := RData.msgModules MSG_REGISTERED ms },
           none⟩

/-- The unregister_data_listener branch of _handle_event. -/
def unregisterBranch {α : Type} (st : WSState α) (listener_id : String)
    (r : Request) : HandleResult α :=
  let res := remove_listener st.listeners listener_id
  if res.2 then
    ⟨{ st with listeners := res.1 },
     send st { id := r.id, type := TYPE_DATA_LISTENER_UNREGISTERED,
               data := RData.msg MSG_UNREGISTERED },
     none⟩
  else
    ⟨{ st with listeners := res.1 },
     send st { id := r.id, type := TYPE_ERROR,
               subtype := some SUBTYPE_LISTENER_NOT_REGISTERED,
               data := RData.msg MSG_NOT_REGISTERED },
     none⟩

/-- The per-module for-loop of the get_data branch: a module whose snapshot
attribute reads None is answered with a per-module error response, one with
data present with a data_update response; an attribute read that raises
(name outside ModulesData's fields) aborts the loop and the exception
escapes to the message loop's boundary. -/
def getDataLoop {α : Type} (st : WSState α) (rid : String)
    (ms : List String) : List (Response α) × Option PyErr :=
  match ms with
  | [] => ([], none)
  | m :: rest =>
    match modulesDataGetattr st.snapshot m with
    | .error e => ([], some e)
    | .ok none =>
      let r := getDataLoop st rid rest
      (send st { id := rid, type := TYPE_ERROR,
                 message := some MSG_NO_DATA, module := some m,
                 data := RData.empty } ++ r.1,
       r.2)
    | .ok (some d) =>
      let r := getDataLoop st rid rest
      (send st { id := rid, type := TYPE_DATA_UPDATE,
                 message := some MSG_DATA_RECEIVED, module := some m,
                 data := RData.blob d } ++ r.1,
       r.2)

/-- The get_data branch of _handle_event: the same modules validation as
registration, then a data_get acknowledgement carrying the requested list,
then the per-module loop. -/
def getDataBranch {α : Type} (st : WSState α) (r : Request) :
    HandleResult α :=
  match r.dataModules with
  | .absent => ⟨st, [], some (PyErr.keyError EVENT_MODULES)⟩
  | .null =>
    ⟨st,
     send st { id := r.id, type := TYPE_ERROR,
               subtype := some SUBTYPE_MISSING_MODULES,
               data := RData.msg MSG_NO_MODULES },
     none⟩
  | .given ms =>
    if ms.length = 0 then
      ⟨st,
       send st { id := r.id, type := TYPE_ERROR,
                 subtype := some SUBTYPE_MISSING_MODULES,
                 data := RData.msg MSG_NO_MODULES },
       none⟩
    else
      let ack := send st { id := r.id, type := TYPE_DATA_GET,
                           message := some MSG_GETTING_DATA,
                           data := RData.modulesOnly ms }
      let loop := getDataLoop st r.id ms
      ⟨st, ack ++ loop.1, loop.2⟩

/-- WebSocketHandler._handle_event: dispatch over the event name, in the
if/elif order of the source.  The application-update and keyboard branches
delegate to external collaborators (systembridgeshared.update and the
keyboard utilities) and are modeled only as occupying their event names in
the dispatch chain — no claim exercises their internals; exit_application
invokes the exit callback and sends nothing.  An event matching no branch
is answered with an unknown_event error. -/
def handle_event {α : Type} (st : WSState α) (listener_id : String)
    (r : Request) : HandleResult α :=
  if r.event = TYPE_APPLICATION_UPDATE then
    ⟨st, [], none⟩
  else if r.event = TYPE_EXIT_APPLICATION then
    ⟨{ st with exitRequested := true }, [], none⟩
  else if r.event = TYPE_KEYBOARD_KEYPRESS then
    ⟨st, [], none⟩
  else if r.event = TYPE_KEYBOARD_TEXT then
    ⟨st, [], none⟩
  else if r.event = TYPE_REGISTER_DATA_LISTENER then
    registerBranch st listener_id r
  else if r.event = TYPE_UNREGISTER_DATA_LISTENER then
    unregisterBranch st listener_id r
  else if r.event = TYPE_GET_DATA then
    getDataBranch st r
  else
    ⟨st,
     send st { id := r.id, type := TYPE_ERROR,
               subtype := some SUBTYPE_UNKNOWN_EVENT,
               data := RData.msgEvent MSG_UNKNOWN_EVENT r.event },
     none⟩

/-- WebSocketHandler._handler: the per-connection message loop over the
stream of inbound messages (the list ends when the transport closes).
While active: an undecodable payload is answered once with a bad_json
error under id UNKNOWN and the loop returns (remaining messages are never
processed); an unparsable envelope likewise with bad_request; a token
mismatch is answered with bad_token and the loop returns; otherwise the
event is handled, an exception escaping the handler is converted by the
boundary into an error response with subtype unknown_event, and the loop
continues with the next message. -/
def handler_loop {α : Type} (listener_id : String) (st : WSState α)
    (msgs : List InMsg) : WSState α × List (Response α) :=
  match msgs with
  | [] => (st, [])
  | m :: rest =>
    if st.active then
      match m with
      | .badJson =>
        (st, send st { id := UNKNOWN_ID, type := TYPE_ERROR,
                       subtype := some SUBTYPE_BAD_JSON,
                       data := RData.msg MSG_INVALID_JSON })
      | .badRequest =>
        (st, send st { id := UNKNOWN_ID, type := TYPE_ERROR,
                       subtype := some SUBTYPE_BAD_REQUEST,
                       data := RData.msg MSG_INVALID_REQUEST })
      | .ok r =>
        if r.token = st.apiToken then
          let h := handle_event st listener_id r
          let boundaryOut :=
            match h.err with
            | some e =>
              send h.st { id := r.id, type := TYPE_ERROR,
                          subtype := some SUBTYPE_UNKNOWN_EVENT,
                          data := RData.msg (strOfPyErr e) }
            | none => []
          let next := handler_loop listener_id h.st rest
          (next.1, h.out ++ boundaryOut ++ next.2)
        else
          (st, send st { id := r.id, type := TYPE_ERROR,
                         subtype := some SUBTYPE_BAD_TOKEN,
                         data := RData.msg MSG_INVALID_TOKEN })
    else
      (st, [])

/-- The closed handler table of _handle_event: the event names with a
branch in the if/elif dispatch chain. -/
def HANDLED_EVENTS : List String :=
  [TYPE_APPLICATION_UPDATE, TYPE_EXIT_APPLICATION, TYPE_KEYBOARD_KEYPRESS,
   TYPE_KEYBOARD_TEXT, TYPE_REGISTER_DATA_LISTENER,
   TYPE_UNREGISTER_DATA_LISTENER, TYPE_GET_DATA]

/-- Claim C10: once a connection handler has been deactivated via
set_active(False), _send_response is a no-op for every response: the state
is unchanged and nothing is sent, regardless of the response's content. -/
theorem C10_inactive_send_is_noop {α : Type} (st : WSState α)
    (r : Response α) :
    send_response (set_active st false) r = (set_active st false, []) := by
  simp [send_response, set_active]

/-- Claim C6: while the connection is active, a malformed
(non-JSON-decodable) payload is answered with exactly one error response
carrying id UNKNOWN and subtype bad_json, and the message loop returns:
whatever messages follow are never processed and the state is left
unchanged (the connection is then torn down by the enclosing handler). -/
theorem C6_bad_json_single_error_then_close {α : Type} (listener_id : String)
    (st : WSState α) (rest : List InMsg) (hactive : st.active = true) :
    handler_loop listener_id st (InMsg.badJson :: rest) =
      (st,
       [{ id := UNKNOWN_ID, type := TYPE_ERROR,
          subtype := some SUBTYPE_BAD_JSON, module := none, message := none,
          data := RData.msg MSG_INVALID_JSON }]) := by
  simp [handler_loop, hactive, send, send_response]

/-- A concrete connection state for evaluating the protocol engine: active,
token "T", empty registry, empty snapshot. -/
def stateA : WSState Nat :=
  ⟨true, "T", ⟨[]⟩, [], false⟩

/-- A concrete listener id (the uuid the connection handler generates). -/
def lidA : String := "listener-a"

/-- Witness for C6: on the concrete active connection, a malformed payload
followed by another message yields only the bad_json error. -/
theorem C6_bad_json_single_error_then_close_witness :
    stateA.active = true ∧
      handler_loop lidA stateA [InMsg.badJson, InMsg.badJson] =
        (stateA,
         [{ id := UNKNOWN_ID, type := TYPE_ERROR,
            subtype := some SUBTYPE_BAD_JSON, module := none,
            message := none, data := RData.msg MSG_INVALID_JSON }]) :=
  ⟨rfl, C6_bad_json_single_error_then_close lidA stateA [InMsg.badJson] rfl⟩

/-- Claim C7: a valid, authenticated request whose event name is not in
the handler table is answered with an error of subtype unknown_event that
echoes the request's id, and the connection stays open: the loop's result
on the remaining messages is exactly what it would have been, from the
unchanged state, had this request not been sent. -/
theorem C7_unknown_event_keeps_connection {α : Type} (listener_id : String)
    (st : WSState α) (r : Request) (rest : List InMsg)
    (hactive : st.active = true) (htoken : r.token = st.apiToken)
    (hev : r.event ∉ HANDLED_EVENTS) :
    handler_loop listener_id st (InMsg.ok r :: rest) =
      ((handler_loop listener_id st rest).1,
        { id := r.id, type := TYPE_ERROR,
          subtype := some SUBTYPE_UNKNOWN_EVENT, module := none,
          message := none,
          data := RData.msgEvent MSG_UNKNOWN_EVENT r.event }
          :: (handler_loop listener_id st rest).2) := by
  simp only [HANDLED_EVENTS, List.mem_cons, List.not_mem_nil, not_or,
    or_false] at hev
  obtain ⟨h1, h2, h3, h4, h5, h6, h7⟩ := hev
  simp [handler_loop, hactive, htoken, handle_event, h1, h2, h3, h4, h5, h6,
    h7, send, send_response]

/-- A concrete request with an event name outside the handler table. -/
def requestUnknownEvent : Request :=
  ⟨"r7", "T", "made_up_event", ModulesField.absent⟩

/-- Witness for C7: the unknown event is answered and the following
malformed payload is still processed on the same connection. -/
theorem C7_unknown_event_keeps_connection_witness :
    (stateA.active = true ∧ requestUnknownEvent.token = stateA.apiToken ∧
        requestUnknownEvent.event ∉ HANDLED_EVENTS) ∧
      handler_loop lidA stateA [InMsg.ok requestUnknownEvent, InMsg.badJson] =
        ((handler_loop lidA stateA [InMsg.badJson]).1,
          { id := requestUnknownEvent.id, type := TYPE_ERROR,
            subtype := some SUBTYPE_UNKNOWN_EVENT, module := none,
            message := none,
            data := RData.msgEvent MSG_UNKNOWN_EVENT requestUnknownEvent.event }
            :: (handler_loop lidA stateA [InMsg.badJson]).2) :=
  ⟨⟨rfl, rfl, by decide⟩,
   C7_unknown_event_keeps_connection lidA stateA requestUnknownEvent
     [InMsg.badJson] rfl rfl (by decide)⟩

/-- The end-to-end scenario A request: register_data_listener for cpu and
memory under id r1 with the matching token. -/
def requestA : Request :=
  ⟨"r1", "T", TYPE_REGISTER_DATA_LISTENER, ModulesField.given ["cpu", "memory"]⟩

/-- Claim C1, evaluated at the failing input (the code_bug evidence).  The
specification's scenario A expects a data_listener_registered response
echoing id r1 and the listener present in the registry afterwards.  On the
source as written, Listeners.add_listener declares four required
parameters (listener_id, send_response, data_changed_callback, modules)
while the register branch passes only three positional arguments, so the
call raises TypeError before any registration happens; the loop's
exception boundary turns that into an error response of subtype
unknown_event, and the registry stays empty. -/
theorem C1_register_typeerror_eval :
    handler_loop lidA stateA [InMsg.ok requestA] =
      (stateA,
       [{ id := "r1", type := TYPE_ERROR,
          subtype := some SUBTYPE_UNKNOWN_EVENT, module := none,
          message := none, data := RData.msg addListenerTypeErrorText }]) ∧
      ListenersState.registered_listeners
          (handler_loop lidA stateA [InMsg.ok requestA]).1.listeners = [] ∧
      TYPE_ERROR ≠ TYPE_DATA_LISTENER_REGISTERED :=
  ⟨rfl, rfl, by decide⟩

/-- The end-to-end scenario C request: get_data for a name outside the
closed module set. -/
def requestBadGet : Request :=
  ⟨"r2", "T", TYPE_GET_DATA, ModulesField.given ["doesnotexist"]⟩

/-- Counterexample to claim C2 as stated.  A get_data request whose modules
list holds a name outside the closed set passes the only validation the
handler performs (presence/non-emptiness of the list): no validation error
citing missing/invalid modules is produced.  Instead a data_get
acknowledgement goes out, the out-of-set name reaches the ModulesData
attribute read, which raises AttributeError, and the loop's exception
boundary answers with subtype unknown_event — which is not the
missing_modules validation subtype the claim requires. -/
theorem C2_counterexample_no_validation :
    handler_loop lidA stateA [InMsg.ok requestBadGet] =
      (stateA,
       [{ id := "r2", type := TYPE_DATA_GET, subtype := none, module := none,
          message := some MSG_GETTING_DATA,
          data := RData.modulesOnly ["doesnotexist"] },
        { id := "r2", type := TYPE_ERROR,
          subtype := some SUBTYPE_UNKNOWN_EVENT, module := none,
          message := none,
          data := RData.msg (strOfPyErr
            (PyErr.attributeError "doesnotexist")) }]) ∧
      SUBTYPE_UNKNOWN_EVENT ≠ SUBTYPE_MISSING_MODULES :=
  ⟨rfl, by decide⟩

/-- Claim C2 (amended: out-of-set module names are not rejected by the
modules validation, which only checks presence and non-emptiness; the
out-of-set name still never yields data and never reaches the registry,
but the definite response comes from the loop's exception boundary with
subtype unknown_event rather than from validation): for every name outside
the closed set, an authenticated get_data for it yields the data_get
acknowledgement followed by an unknown_event error, the state is
unchanged and the loop continues with the remaining messages; an
authenticated register_data_listener whose list contains it terminates in
the unknown_event error with the registry untouched (the add_listener call
raises before registering anything). -/
theorem C2_out_of_set_never_served {α : Type} (st : WSState α)
    (listener_id i m : String) (ms2 : List String) (rest : List InMsg)
    (hactive : st.active = true) (hm : m ∉ MODULES) :
    (handler_loop listener_id st
        (InMsg.ok ⟨i, st.apiToken, TYPE_GET_DATA, ModulesField.given [m]⟩
          :: rest) =
      ((handler_loop listener_id st rest).1,
        { id := i, type := TYPE_DATA_GET, subtype := none, module := none,
          message := some MSG_GETTING_DATA, data := RData.modulesOnly [m] }
          :: { id := i, type := TYPE_ERROR,
               subtype := some SUBTYPE_UNKNOWN_EVENT, module := none,
               message := none,
               data := RData.msg (strOfPyErr (PyErr.attributeError m)) }
          :: (handler_loop listener_id st rest).2)) ∧
    handler_loop listener_id st
        [InMsg.ok ⟨i, st.apiToken, TYPE_REGISTER_DATA_LISTENER,
          ModulesField.given (m :: ms2)⟩] =
      (st,
       [{ id := i, type := TYPE_ERROR,
          subtype := some SUBTYPE_UNKNOWN_EVENT, module := none,
          message := none, data := RData.msg addListenerTypeErrorText }]) := by
  constructor
  · simp [handler_loop, hactive, handle_event, getDataBranch, getDataLoop,
      modulesDataGetattr, hm, send, send_response, TYPE_GET_DATA,
      TYPE_APPLICATION_UPDATE, TYPE_EXIT_APPLICATION, TYPE_KEYBOARD_KEYPRESS,
      TYPE_KEYBOARD_TEXT, TYPE_REGISTER_DATA_LISTENER,
      TYPE_UNREGISTER_DATA_LISTENER]
  · simp [handler_loop, hactive, handle_event, registerBranch,
      websocketAddListenerCall, strOfPyErr, send, send_response,
      TYPE_GET_DATA, TYPE_APPLICATION_UPDATE, TYPE_EXIT_APPLICATION,
      TYPE_KEYBOARD_KEYPRESS, TYPE_KEYBOARD_TEXT,
      TYPE_REGISTER_DATA_LISTENER, TYPE_UNREGISTER_DATA_LISTENER]

/-- Witness for C2: the amended behaviour at the concrete out-of-set name
doesnotexist on the concrete active connection. -/
theorem C2_out_of_set_never_served_witness :
    (stateA.active = true ∧ "doesnotexist" ∉ MODULES) ∧
    ((handler_loop lidA stateA
        (InMsg.ok ⟨"r9", stateA.apiToken, TYPE_GET_DATA,
          ModulesField.given ["doesnotexist"]⟩ :: []) =
      ((handler_loop lidA stateA []).1,
        { id := "r9", type := TYPE_DATA_GET, subtype := none, module := none,
          message := some MSG_GETTING_DATA,
          data := RData.modulesOnly ["doesnotexist"] }
          :: { id := "r9", type := TYPE_ERROR,
               subtype := some SUBTYPE_UNKNOWN_EVENT, module := none,
               message := none,
               data := RData.msg (strOfPyErr
                 (PyErr.attributeError "doesnotexist")) }
          :: (handler_loop lidA stateA []).2)) ∧
      handler_loop lidA stateA
          [InMsg.ok ⟨"r9", stateA.apiToken, TYPE_REGISTER_DATA_LISTENER,
            ModulesField.given ("doesnotexist" :: [])⟩] =
        (stateA,
         [{ id := "r9", type := TYPE_ERROR,
            subtype := some SUBTYPE_UNKNOWN_EVENT, module := none,
            message := none,
            data := RData.msg addListenerTypeErrorText }])) :=
  ⟨⟨rfl, by decide⟩,
   C2_out_of_set_never_served stateA lidA "r9" "doesnotexist" [] [] rfl
     (by decide)⟩

end SystemBridge
